import Mathlib

/-!
Verification of the pdf-protection-tool repository
(src/pdf-protection-tool/pdf_protect.py) against its specification.

The repository is a thin orchestration layer over an external PDF library.
We shallowly embed the validation functions (`validate_input_file`,
`validate_output_path`, `validate_password`) and the orchestration function
(`protect_pdf`) over an explicit filesystem state `FS`.  The external PDF
library (pypdf) is modelled as oracles inside `FS`: `readPdf` (the
`PdfReader` constructor, which either fails or yields a parsed document)
and `writeOk` (whether serialization to a given path succeeds).  Byte-level
PDF structure is out of scope of the repository itself (the spec states
this explicitly), so a page is an abstract token and a document is its page
list, optional metadata and an encryption flag.
-/

/-- Abstract token standing for one PDF page object. -/
abbrev Page := Nat

/-- Abstract metadata dictionary (key-value pairs), standing for the
pypdf DocumentInformation mapping. -/
abbrev Meta := List (String × String)

/-- Result of parsing a PDF with the external reader: the page sequence,
the optional metadata, and the reader-reported encryption flag. -/
structure PdfDoc where
  pages : List Page
  metadata : Option Meta
  is_encrypted : Bool
  deriving DecidableEq, Repr

/-- State of a pypdf PdfWriter: pages added so far, metadata if set, and
the (user password, owner password) pair once `encrypt` has been called. -/
structure PdfWriter where
  pages : List Page
  metadata : Option Meta
  encryption : Option (String × String)
  deriving DecidableEq, Repr

/-- A fresh `PdfWriter()`. -/
def PdfWriter.new : PdfWriter :=
  { pages := [], metadata := none, encryption := none }

/-- `writer.add_page(page)`: appends one page. -/
def PdfWriter.add_page (w : PdfWriter) (p : Page) : PdfWriter :=
  { w with pages := w.pages ++ [p] }

/-- `writer.add_metadata(m)`: records the metadata on the writer. -/
def PdfWriter.add_metadata (w : PdfWriter) (m : Meta) : PdfWriter :=
  { w with metadata := some m }

/-- `writer.encrypt(user_password=u, owner_password=o)`: records the
password pair that encryption is applied with. -/
def PdfWriter.encrypt (w : PdfWriter) (u o : String) : PdfWriter :=
  { w with encryption := some (u, o) }

/-- Error taxonomy of the Python code: FileNotFoundError, ValueError
(the InvalidInput category of the spec), PermissionError, RuntimeError
(read failure) and IOError (write failure), each with its message. -/
inductive Err where
  | fileNotFound (msg : String)
  | valueError (msg : String)
  | permissionError (msg : String)
  | runtimeError (msg : String)
  | ioError (msg : String)
  deriving DecidableEq, Repr

/-- Filesystem and external-library state.  The `pathExists`, `isFile`,
`size` and `writable` fields are the metadata reads the validators make
(`Path.exists`, `Path.is_file`, `Path.stat().st_size`, `os.access(_, W_OK)`);
`cwd` drives `Path.resolve`; `readPdf` is the external `PdfReader`
(either a parse failure message or a parsed document); `files` holds the
written documents; `writeOk` says whether serializing to a path succeeds,
`writtenSize` the on-disk size the serializer produces, and
`leftoverFile`/`leftoverSize` the unspecified partial state a failed write
may leave at the target path. -/
structure FS where
  pathExists : String → Bool
  isFile : String → Bool
  size : String → Nat
  writable : String → Bool
  cwd : String
  readPdf : String → Except String PdfDoc
  writeOk : String → Bool
  files : String → Option PdfWriter
  writtenSize : Nat
  leftoverFile : String → Option PdfWriter
  leftoverSize : String → Nat

/-- Splitting a character list at every slash (structural counterpart of
splitting a POSIX path string on "/"). -/
def splitSlash : List Char → List (List Char)
  | [] => [[]]
  | c :: cs =>
    match splitSlash cs, decide (c = '/') with
    | r, true => [] :: r
    | [], false => [[c]]
    | h :: t, false => (c :: h) :: t

/-- Path components of `p` as pathlib parses them on POSIX: split on "/",
dropping empty and single-dot components. -/
def pathComps (p : String) : List String :=
  ((splitSlash p.toList).map String.mk).filter (fun c => c ≠ "" ∧ c ≠ ".")

/-- Last path component, as pathlib computes `Path(p).name` on POSIX. -/
def pathName (p : String) : String :=
  (pathComps p).getLastD ""

/-- Index of the last dot in a string, `-1` when absent
(Python `str.rfind`). -/
def lastDotIdx (s : String) : Int :=
  match ((List.range s.toList.length).filter
      (fun i => s.toList.getD i ' ' = '.')).getLast? with
  | some i => (i : Int)
  | none => -1

/-- `Path(p).suffix`: the extension of the final component, i.e. the part
of the name from its last dot, provided that dot is neither the first nor
the last character of the name. -/
def pathSuffix (p : String) : String :=
  let name := pathName p
  let i := lastDotIdx name
  if 0 < i ∧ i < (name.toList.length : Int) - 1 then
    String.mk (name.toList.drop i.toNat)
  else ""

/-- ASCII-range lowercasing of a string (the `str.lower()` calls in the
code only ever meet the ".pdf"/".PDF" family of suffixes). -/
def lowerStr (s : String) : String :=
  String.mk (s.toList.map Char.toLower)

/-- Whether a POSIX path is absolute (begins with a slash). -/
def isAbsPath (p : String) : Bool :=
  p.toList.head? = some '/'

/-- Joining path components back with slashes. -/
def joinComps : List String → String
  | [] => ""
  | [c] => c
  | c :: rest => c ++ "/" ++ joinComps rest

/-- `Path(p).parent` on POSIX: the path with its last component removed;
"." for a bare filename, "/" at the root. -/
def pathParent (p : String) : String :=
  let comps := (pathComps p).dropLast
  if comps = [] then (if isAbsPath p then "/" else ".")
  else (if isAbsPath p then "/" else "") ++ joinComps comps

/-- `Path(p).resolve()` in the symlink-free case: an absolute path is
already resolved, a relative path is made absolute against the current
working directory. -/
def FS.resolvePath (fs : FS) (p : String) : String :=
  if isAbsPath p then p else fs.cwd ++ "/" ++ p

/-- Effect of a successful `writer.write(open(p, "wb"))`: the written
document is stored at `p` and the size of `p` becomes the serialized size. -/
def FS.writeTo (fs : FS) (p : String) (w : PdfWriter) : FS :=
  { fs with
    files := fun q => if q = p then some w else fs.files q,
    size := fun q => if q = p then fs.writtenSize else fs.size q }

/-- Effect of a failed write at `p`: the code does not clean up, so the
target path is left in the oracle-specified partial state. -/
def FS.failWrite (fs : FS) (p : String) : FS :=
  { fs with
    files := fun q => if q = p then fs.leftoverFile p else fs.files q,
    size := fun q => if q = p then fs.leftoverSize p else fs.size q }

/-- `validate_input_file`: the path must exist, be a regular file, carry a
case-insensitive ".pdf" suffix and be non-empty; on success the path is
returned as given.  Reads filesystem metadata only; no writes. -/
def validate_input_file (fs : FS) (file_path : String) : Except Err String :=
  let path := file_path
  if ¬ fs.pathExists path then
    .error (.fileNotFound ("Input file not found: " ++ file_path))
  else if ¬ fs.isFile path then
    .error (.valueError ("Path is not a file: " ++ file_path))
  else if lowerStr (pathSuffix path) ≠ ".pdf" then
    .error (.valueError ("Input file does not have a .pdf extension: " ++ file_path))
  else if fs.size path = 0 then
    .error (.valueError ("Input file is empty: " ++ file_path))
  else
    .ok path

/-- `validate_output_path`: the path must carry a case-insensitive ".pdf"
suffix and have an existing, writable parent directory; on success the
path is returned as given.  Reads filesystem metadata only; it never
creates a directory or file and never looks at the target path itself. -/
def validate_output_path (fs : FS) (file_path : String) : Except Err String :=
  let path := file_path
  if lowerStr (pathSuffix path) ≠ ".pdf" then
    .error (.valueError ("Output file must have a .pdf extension: " ++ file_path))
  else
    let parent := pathParent path
    if ¬ fs.pathExists parent then
      .error (.fileNotFound ("Output directory does not exist: " ++ parent))
    else if ¬ fs.writable parent then
      .error (.permissionError ("No write permission for directory: " ++ parent))
    else
      .ok path

/-- `validate_password`: rejects the empty password, then any password of
fewer than 4 characters (`len` on a Python `str` counts characters). -/
def validate_password (password : String) : Except Err Unit :=
  if password = "" then
    .error (.valueError "Password cannot be empty.")
  else if password.length < 4 then
    .error (.valueError "Password must be at least 4 characters long.")
  else
    .ok ()

/-- The owner-password step of `protect_pdf`: Python tests
`if owner_password:` (truthiness), so only a present AND non-empty owner
password is validated; `None` and the empty string both fall to the
default `owner_password = user_password`. -/
def resolveOwner (user_password : String) (owner_password : Option String) :
    Except Err String :=
  match owner_password with
  | some op =>
      if op ≠ "" then
        match validate_password op with
        | .error e => .error e
        | .ok _ => .ok op
      else .ok user_password
  | none => .ok user_password

/-- `round(x, 2)`: rounding to two decimal places (binary floating point
representation and the half-to-even tie rule are abstracted; no claim
depends on the tie behaviour). -/
def round2 (q : ℚ) : ℚ := (round (q * 100) : ℚ) / 100

/-- The summary dict returned by `protect_pdf`. -/
structure Summary where
  input_file : String
  output_file : String
  pages_protected : Nat
  input_size_kb : ℚ
  output_size_kb : ℚ
  deriving DecidableEq, Repr

/-- `protect_pdf(input_path, output_path, user_password, owner_password)`:
validates input path, output path and user password in that order, resolves
the owner password, reads the input PDF, rejects encrypted and zero-page
documents, copies every page and the (truthy) metadata into a fresh writer,
encrypts, writes the result and returns the summary.  The returned `FS` is
the filesystem after the call. -/
def protect_pdf (fs : FS) (input_path output_path user_password : String)
    (owner_password : Option String) : Except Err Summary × FS :=
  match validate_input_file fs input_path with
  | .error e => (.error e, fs)
  | .ok in_path =>
  match validate_output_path fs output_path with
  | .error e => (.error e, fs)
  | .ok out_path =>
  match validate_password user_password with
  | .error e => (.error e, fs)
  | .ok _ =>
  match resolveOwner user_password owner_password with
  | .error e => (.error e, fs)
  | .ok owner_pw =>
  match fs.readPdf in_path with
  | .error e => (.error (.runtimeError ("Failed to read PDF file: " ++ e)), fs)
  | .ok reader =>
  if reader.is_encrypted then
    (.error (.valueError ("The input PDF is already encrypted: " ++ input_path
      ++ ". Please decrypt it first before re-encrypting.")), fs)
  else
    let total_pages := reader.pages.length
    if total_pages = 0 then
      (.error (.valueError ("The PDF file has no pages: " ++ input_path)), fs)
    else
      let writer := reader.pages.foldl PdfWriter.add_page PdfWriter.new
      let writer := match reader.metadata with
        | some m => if m ≠ [] then writer.add_metadata m else writer
        | none => writer
      let writer := writer.encrypt user_password owner_pw
      if fs.writeOk out_path then
        let fs2 := fs.writeTo out_path writer
        (.ok { input_file := fs2.resolvePath in_path,
               output_file := fs2.resolvePath out_path,
               pages_protected := total_pages,
               input_size_kb := round2 ((fs2.size in_path : ℚ) / 1024),
               output_size_kb := round2 ((fs2.size out_path : ℚ) / 1024) }, fs2)
      else
        (.error (.ioError "Failed to write output file"), fs.failWrite out_path)

/-- The writer that `protect_pdf` builds on its success path for a parsed
document `reader`: pages copied in order, truthy metadata copied, then
encryption with the user and (resolved) owner passwords. -/
def builtWriter (reader : PdfDoc) (user_password owner_pw : String) : PdfWriter :=
  let writer := reader.pages.foldl PdfWriter.add_page PdfWriter.new
  let writer := match reader.metadata with
    | some m => if m ≠ [] then writer.add_metadata m else writer
    | none => writer
  writer.encrypt user_password owner_pw

/-- The summary dict `protect_pdf` returns on success: resolved paths,
page count, and sizes as read back after the write. -/
def successSummary (fs : FS) (in_path out_path : String) (reader : PdfDoc)
    (user_password owner_pw : String) : Summary :=
  let fs2 := fs.writeTo out_path (builtWriter reader user_password owner_pw)
  { input_file := fs2.resolvePath in_path,
    output_file := fs2.resolvePath out_path,
    pages_protected := reader.pages.length,
    input_size_kb := round2 ((fs2.size in_path : ℚ) / 1024),
    output_size_kb := round2 ((fs2.size out_path : ℚ) / 1024) }

/-- Folding `add_page` over a page list appends the list to the writer's
pages. -/
theorem foldl_add_page_pages (l : List Page) (w : PdfWriter) :
    (l.foldl PdfWriter.add_page w).pages = w.pages ++ l := by
  induction l generalizing w with
  | nil => simp
  | cons p ps ih =>
      simp [List.foldl_cons, ih, PdfWriter.add_page]

/-- The writer built by the success path carries exactly the input pages,
in order. -/
theorem builtWriter_pages (reader : PdfDoc) (u o : String) :
    (builtWriter reader u o).pages = reader.pages := by
  unfold builtWriter PdfWriter.encrypt PdfWriter.add_metadata
  rcases reader.metadata with _ | m <;>
    simp [foldl_add_page_pages, PdfWriter.new]
  split <;> simp [foldl_add_page_pages]

/-- The writer built by the success path is encrypted with exactly the
user and resolved-owner password pair. -/
theorem builtWriter_encryption (reader : PdfDoc) (u o : String) :
    (builtWriter reader u o).encryption = some (u, o) := by
  unfold builtWriter PdfWriter.encrypt PdfWriter.add_metadata
  rcases reader.metadata with _ | m <;> simp

/-- Characterization of `protect_pdf` on the success path: when every
validation passes, the read succeeds on an unencrypted document with at
least one page, and the write succeeds, the call returns the success
summary and the filesystem with the built writer stored at the output
path. -/
theorem protect_pdf_success (fs : FS) (ip op up : String) (ow : Option String)
    (opw : String) (reader : PdfDoc)
    (h1 : validate_input_file fs ip = .ok ip)
    (h2 : validate_output_path fs op = .ok op)
    (h3 : validate_password up = .ok ())
    (h4 : resolveOwner up ow = .ok opw)
    (hr : fs.readPdf ip = .ok reader)
    (he : reader.is_encrypted = false)
    (hp : reader.pages ≠ [])
    (hw : fs.writeOk op = true) :
    protect_pdf fs ip op up ow =
      (.ok (successSummary fs ip op reader up opw),
       fs.writeTo op (builtWriter reader up opw)) := by
  unfold protect_pdf
  rw [h1]; dsimp only
  rw [h2]; dsimp only
  rw [h3]; dsimp only
  rw [h4]; dsimp only
  rw [hr]; dsimp only
  rw [he]
  rw [if_neg (by simp), if_neg (by simpa using hp), hw, if_pos rfl]
  rfl

/-- Claim C1: for every input whose parsed document reports itself as
encrypted, `protect_pdf` fails with the already-encrypted ValueError
(the AlreadyEncryptedError of the spec) and returns the filesystem
unchanged: no output file is created or modified, the rejection happening
before any write to the output path. -/
theorem protect_rejects_already_encrypted (fs : FS) (ip op up : String)
    (ow : Option String) (opw : String) (reader : PdfDoc)
    (h1 : validate_input_file fs ip = .ok ip)
    (h2 : validate_output_path fs op = .ok op)
    (h3 : validate_password up = .ok ())
    (h4 : resolveOwner up ow = .ok opw)
    (hr : fs.readPdf ip = .ok reader)
    (he : reader.is_encrypted = true) :
    protect_pdf fs ip op up ow =
      (.error (.valueError ("The input PDF is already encrypted: " ++ ip
        ++ ". Please decrypt it first before re-encrypting.")), fs) := by
  unfold protect_pdf
  rw [h1]; dsimp only
  rw [h2]; dsimp only
  rw [h3]; dsimp only
  rw [h4]; dsimp only
  rw [hr]; dsimp only
  rw [he, if_pos rfl]

/-- Claim C10: whenever `protect_pdf` fails with any error other than the
write-failure IOError of the final serialization step (validation errors,
read failure, already-encrypted rejection, zero-page rejection), the
returned filesystem is exactly the input filesystem: the output path is
neither created nor modified, every check and all copying and encryption
happening before the first write. -/
theorem protect_nonwrite_error_preserves_fs (fs : FS) (ip op up : String)
    (ow : Option String) (e : Err) (fs2 : FS)
    (h : protect_pdf fs ip op up ow = (.error e, fs2))
    (hio : ∀ m, e ≠ Err.ioError m) :
    fs2 = fs := by
  unfold protect_pdf at h
  repeat'
    first
      | split at h
      | simp only [Prod.mk.injEq] at h
  all_goals
    first
      | exact h.2.symm
      | exact Except.noConfusion h.1
      | (obtain ⟨h1, h2⟩ := h; injection h1 with h1; exact ((hio _ h1.symm).elim))

/-- Claim C5: `protect_pdf` validates its arguments fail-fast in the fixed
order input path, output path, user password: the first failing validation
in that order determines the raised error and leaves the filesystem
untouched, later validations not being reached. -/
theorem protect_validation_order (fs : FS) (ip op up : String)
    (ow : Option String) :
    (∀ e, validate_input_file fs ip = .error e →
      protect_pdf fs ip op up ow = (.error e, fs)) ∧
    (∀ e, validate_input_file fs ip = .ok ip →
      validate_output_path fs op = .error e →
      protect_pdf fs ip op up ow = (.error e, fs)) ∧
    (∀ e, validate_input_file fs ip = .ok ip →
      validate_output_path fs op = .ok op →
      validate_password up = .error e →
      protect_pdf fs ip op up ow = (.error e, fs)) := by
  refine ⟨fun e h1 => ?_, fun e h1 h2 => ?_, fun e h1 h2 h3 => ?_⟩
  · unfold protect_pdf
    rw [h1]
  · unfold protect_pdf
    rw [h1]; dsimp only
    rw [h2]
  · unfold protect_pdf
    rw [h1]; dsimp only
    rw [h2]; dsimp only
    rw [h3]

/-- Claim C2: on a valid unencrypted input with at least one page, a valid
output path and password, `protect_pdf` builds the output document as a
1:1 page-for-page copy of the input, in original order, with no reordering
or filtering, and the returned summary records pages_protected equal to
the input page count. -/
theorem protect_copies_all_pages (fs : FS) (ip op up : String)
    (ow : Option String) (opw : String) (reader : PdfDoc)
    (h1 : validate_input_file fs ip = .ok ip)
    (h2 : validate_output_path fs op = .ok op)
    (h3 : validate_password up = .ok ())
    (h4 : resolveOwner up ow = .ok opw)
    (hr : fs.readPdf ip = .ok reader)
    (he : reader.is_encrypted = false)
    (hp : reader.pages ≠ [])
    (hw : fs.writeOk op = true) :
    ((protect_pdf fs ip op up ow).2.files op).map PdfWriter.pages
        = some reader.pages ∧
    ∃ s, (protect_pdf fs ip op up ow).1 = .ok s ∧
      s.pages_protected = reader.pages.length := by
  rw [protect_pdf_success fs ip op up ow opw reader h1 h2 h3 h4 hr he hp hw]
  refine ⟨?_, successSummary fs ip op reader up opw, rfl, rfl⟩
  simp [FS.writeTo, builtWriter_pages]

/-- Claim C3: when the owner password is absent, encryption is applied
with the owner password equal to the supplied user password: the document
written to the output path carries the password pair
(user_password, user_password). -/
theorem protect_owner_defaults_to_user (fs : FS) (ip op up : String)
    (reader : PdfDoc)
    (h1 : validate_input_file fs ip = .ok ip)
    (h2 : validate_output_path fs op = .ok op)
    (h3 : validate_password up = .ok ())
    (hr : fs.readPdf ip = .ok reader)
    (he : reader.is_encrypted = false)
    (hp : reader.pages ≠ [])
    (hw : fs.writeOk op = true) :
    ∃ w, (protect_pdf fs ip op up none).2.files op = some w ∧
      w.encryption = some (up, up) := by
  rw [protect_pdf_success fs ip op up none up reader h1 h2 h3 rfl hr he hp hw]
  exact ⟨builtWriter reader up up, by simp [FS.writeTo],
    builtWriter_encryption reader up up⟩

/-- Claim C6: `validate_password` fails with a ValueError (InvalidInput)
exactly when the password has length 0 or fewer than 4 characters, and
succeeds returning unit exactly when the length is at least 4; length is
the character count of the string. -/
theorem validate_password_length_spec (password : String) :
    ((∃ m, validate_password password = .error (.valueError m)) ↔
      (password.length = 0 ∨ password.length < 4)) ∧
    (validate_password password = .ok () ↔ 4 ≤ password.length) := by
  have hlen0 : password.length = 0 → password = "" := by
    intro h0
    exact String.ext (List.length_eq_zero.mp h0)
  unfold validate_password
  by_cases h0 : password = ""
  · subst h0
    simp
  · rw [if_neg h0]
    by_cases hl : password.length < 4
    · rw [if_pos hl]
      refine ⟨⟨fun _ => Or.inr hl, fun _ => ⟨_, rfl⟩⟩, ?_, ?_⟩
      · intro hc
        exact Except.noConfusion hc
      · intro hc
        exact absurd hc (by omega)
    · rw [if_neg hl]
      refine ⟨⟨?_, ?_⟩, fun _ => by omega, fun _ => rfl⟩
      · rintro ⟨m, hm⟩
        exact Except.noConfusion hm
      · rintro (hz | hs)
        · exact absurd (hlen0 hz) h0
        · exact absurd hs hl

/-- Claim C4 (amended): a supplied owner password is validated only when
it is non-empty (Python truthiness): a non-empty owner password shorter
than 4 characters makes `protect_pdf` fail with the minimum-length
ValueError before any filesystem change, while a supplied empty owner
password is not validated at all and the call behaves exactly as if the
owner password were absent (it defaults to the user password). -/
theorem owner_password_validation_amended (fs : FS) (ip op up o : String)
    (h1 : validate_input_file fs ip = .ok ip)
    (h2 : validate_output_path fs op = .ok op)
    (h3 : validate_password up = .ok ()) :
    (o ≠ "" → o.length < 4 →
      protect_pdf fs ip op up (some o) =
        (.error (.valueError "Password must be at least 4 characters long."), fs)) ∧
    protect_pdf fs ip op up (some "") = protect_pdf fs ip op up none := by
  constructor
  · intro hne hlt
    have hv : validate_password o =
        .error (.valueError "Password must be at least 4 characters long.") := by
      unfold validate_password
      rw [if_neg hne, if_pos hlt]
    have ho : resolveOwner up (some o) =
        .error (.valueError "Password must be at least 4 characters long.") := by
      unfold resolveOwner
      dsimp only
      rw [if_pos hne, hv]
    unfold protect_pdf
    rw [h1]; dsimp only
    rw [h2]; dsimp only
    rw [h3]; dsimp only
    rw [ho]
  · rfl

/-- Claim C7: `validate_input_file` fails with FileNotFoundError when the
path does not exist; otherwise with ValueError (InvalidInput) when it is
not a regular file, lacks a case-insensitive ".pdf" suffix, or has zero
byte size (an empty file fails even with a correct extension); and in the
remaining case it succeeds. -/
theorem validate_input_file_spec (fs : FS) (p : String) :
    (fs.pathExists p = false →
      validate_input_file fs p =
        .error (.fileNotFound ("Input file not found: " ++ p))) ∧
    (fs.pathExists p = true → fs.isFile p = false →
      validate_input_file fs p =
        .error (.valueError ("Path is not a file: " ++ p))) ∧
    (fs.pathExists p = true → fs.isFile p = true →
      lowerStr (pathSuffix p) ≠ ".pdf" →
      validate_input_file fs p =
        .error (.valueError ("Input file does not have a .pdf extension: " ++ p))) ∧
    (fs.pathExists p = true → fs.isFile p = true →
      lowerStr (pathSuffix p) = ".pdf" → fs.size p = 0 →
      validate_input_file fs p =
        .error (.valueError ("Input file is empty: " ++ p))) ∧
    (fs.pathExists p = true → fs.isFile p = true →
      lowerStr (pathSuffix p) = ".pdf" → fs.size p ≠ 0 →
      validate_input_file fs p = .ok p) := by
  refine ⟨fun he => ?_, fun he hf => ?_, fun he hf hs => ?_,
    fun he hf hs hz => ?_, fun he hf hs hz => ?_⟩ <;>
    simp [validate_input_file, he] <;>
    simp [hf] <;>
    simp [hs] <;>
    simp [hz]

/-- Claim C8: `validate_output_path` fails with ValueError (InvalidInput)
when the extension is not case-insensitively ".pdf", with
FileNotFoundError when the parent directory does not exist, and with
PermissionError when the parent directory is not writable; otherwise it
succeeds.  The success case holds for every filesystem, in particular one
where a file already exists at the target path (overwrite allowed), and
the embedding of the function is a pure reader of the filesystem: it
creates no directories or files. -/
theorem validate_output_path_spec (fs : FS) (p : String) :
    (lowerStr (pathSuffix p) ≠ ".pdf" →
      validate_output_path fs p =
        .error (.valueError ("Output file must have a .pdf extension: " ++ p))) ∧
    (lowerStr (pathSuffix p) = ".pdf" →
      fs.pathExists (pathParent p) = false →
      validate_output_path fs p =
        .error (.fileNotFound ("Output directory does not exist: " ++ pathParent p))) ∧
    (lowerStr (pathSuffix p) = ".pdf" →
      fs.pathExists (pathParent p) = true →
      fs.writable (pathParent p) = false →
      validate_output_path fs p =
        .error (.permissionError ("No write permission for directory: " ++ pathParent p))) ∧
    (lowerStr (pathSuffix p) = ".pdf" →
      fs.pathExists (pathParent p) = true →
      fs.writable (pathParent p) = true →
      validate_output_path fs p = .ok p) := by
  refine ⟨fun hs => ?_, fun hs he => ?_, fun hs he hw => ?_,
    fun hs he hw => ?_⟩ <;>
    simp [validate_output_path, hs] <;>
    simp [he] <;>
    simp [hw]

/-- A concrete two-page unencrypted parsed document. -/
def docGood : PdfDoc := { pages := [10, 20], metadata := none, is_encrypted := false }

/-- The same document with the reader-reported encryption flag set. -/
def docEnc : PdfDoc := { pages := [10, 20], metadata := none, is_encrypted := true }

/-- A concrete filesystem: a 1000-byte PDF at the relative path "in.pdf",
an existing writable current directory ".", working directory "/work",
all writes succeeding with serialized size 2048. -/
def fsGood : FS :=
  { pathExists := fun p => p = "in.pdf" || p = ".",
    isFile := fun p => p = "in.pdf",
    size := fun p => if p = "in.pdf" then 1000 else 0,
    writable := fun p => p = ".",
    cwd := "/work",
    readPdf := fun p => if p = "in.pdf" then .ok docGood else .error "no such file",
    writeOk := fun _ => true,
    files := fun _ => none,
    writtenSize := 2048,
    leftoverFile := fun _ => none,
    leftoverSize := fun _ => 0 }

/-- `fsGood` with the input parsing to an already-encrypted document. -/
def fsEnc : FS :=
  { fsGood with
    readPdf := fun p => if p = "in.pdf" then .ok docEnc else .error "no such file" }

/-- `fsGood` with no path existing at all. -/
def fsBad : FS := { fsGood with pathExists := fun _ => false }

/-- A filesystem holding only a zero-byte file "empty.pdf" (plus "."). -/
def fsEmptyFile : FS :=
  { fsGood with
    pathExists := fun p => p = "empty.pdf" || p = ".",
    isFile := fun p => p = "empty.pdf",
    size := fun _ => 0 }

/-- `fsGood` with a file already present at the output path "out.pdf". -/
def fsOverwrite : FS :=
  { fsGood with
    pathExists := fun p => p = "in.pdf" || p = "." || p = "out.pdf",
    files := fun p => if p = "out.pdf" then some PdfWriter.new else none }

/-- Claim C9 (amended): `validate_input_file` returns the path exactly as
given (not resolved), while the operation result record does contain the
resolved input and output paths. -/
theorem validate_input_returns_given_path_amended (fs : FS) (ip op up v : String)
    (ow : Option String) (opw : String) (reader : PdfDoc) :
    (validate_input_file fs ip = .ok v → v = ip) ∧
    (validate_input_file fs ip = .ok ip →
     validate_output_path fs op = .ok op →
     validate_password up = .ok () →
     resolveOwner up ow = .ok opw →
     fs.readPdf ip = .ok reader →
     reader.is_encrypted = false →
     reader.pages ≠ [] →
     fs.writeOk op = true →
     ∃ s, (protect_pdf fs ip op up ow).1 = .ok s ∧
       s.input_file = fs.resolvePath ip ∧ s.output_file = fs.resolvePath op) := by
  constructor
  · intro hv
    unfold validate_input_file at hv
    dsimp only at hv
    repeat' split at hv
    all_goals
      first
        | exact Except.noConfusion hv
        | (injection hv with hh; exact hh.symm)
  · intro h1 h2 h3 h4 hr he hp hw
    rw [protect_pdf_success fs ip op up ow opw reader h1 h2 h3 h4 hr he hp hw]
    exact ⟨successSummary fs ip op reader up opw, rfl, rfl, rfl⟩

/-- Claim C9 counterexample: on the valid relative input path "in.pdf"
(working directory "/work"), `validate_input_file` returns "in.pdf"
itself, while the resolved path is "/work/in.pdf": the value returned is
not the resolved path. -/
theorem validate_input_not_resolved_counterexample :
    validate_input_file fsGood "in.pdf" = .ok "in.pdf" ∧
    fsGood.resolvePath "in.pdf" = "/work/in.pdf" ∧
    ("in.pdf" : String) ≠ "/work/in.pdf" :=
  ⟨rfl, rfl, by decide⟩

/-- Claim C4 counterexample: with every other argument valid, supplying
the empty string as owner password does not make `protect_pdf` fail with
any error: the call succeeds, so the supplied empty owner password is
never validated. -/
theorem owner_empty_not_rejected_counterexample :
    (protect_pdf fsGood "in.pdf" "out.pdf" "pass1234" (some "")).1.isOk = true := by
  rfl

/-- Witness for C1: on the concrete filesystem whose input parses as an
encrypted document, `protect_pdf` returns the already-encrypted error and
the unchanged filesystem. -/
theorem protect_rejects_already_encrypted_witness :
    protect_pdf fsEnc "in.pdf" "out.pdf" "pass1234" none =
      (.error (.valueError
        "The input PDF is already encrypted: in.pdf. Please decrypt it first before re-encrypting."),
       fsEnc) :=
  protect_rejects_already_encrypted fsEnc "in.pdf" "out.pdf" "pass1234" none
    "pass1234" docEnc rfl rfl rfl rfl rfl rfl

/-- Witness for C2: the concrete two-page run copies both pages in order
and reports pages_protected = 2. -/
theorem protect_copies_all_pages_witness :
    ((protect_pdf fsGood "in.pdf" "out.pdf" "pass1234" none).2.files "out.pdf").map
        PdfWriter.pages = some [10, 20] ∧
    ∃ s, (protect_pdf fsGood "in.pdf" "out.pdf" "pass1234" none).1 = .ok s ∧
      s.pages_protected = 2 :=
  protect_copies_all_pages fsGood "in.pdf" "out.pdf" "pass1234" none "pass1234"
    docGood rfl rfl rfl rfl rfl rfl (by decide) rfl

/-- Witness for C3: with the owner password omitted, the concrete run
writes a document encrypted with the pair ("pass1234", "pass1234"). -/
theorem protect_owner_defaults_to_user_witness :
    ∃ w, (protect_pdf fsGood "in.pdf" "out.pdf" "pass1234" none).2.files "out.pdf"
        = some w ∧ w.encryption = some ("pass1234", "pass1234") :=
  protect_owner_defaults_to_user fsGood "in.pdf" "out.pdf" "pass1234" docGood
    rfl rfl rfl rfl rfl (by decide) rfl

/-- Witness for C4 (amended claim): the concrete non-empty 2-character
owner password "ab" makes `protect_pdf` fail with the minimum-length
ValueError and leave the filesystem unchanged. -/
theorem owner_password_validation_amended_witness :
    protect_pdf fsGood "in.pdf" "out.pdf" "pass1234" (some "ab") =
      (.error (.valueError "Password must be at least 4 characters long."), fsGood) :=
  (owner_password_validation_amended fsGood "in.pdf" "out.pdf" "pass1234" "ab"
    rfl rfl rfl).1 (by decide) (by decide)

/-- Witness for C5: on a filesystem where the input path is missing, the
output extension is wrong and the password is too short, the error raised
is the input-path NotFoundError: the first check in the fixed order wins. -/
theorem protect_validation_order_witness :
    protect_pdf fsBad "in.txt" "out.txt" "ab" none =
      (.error (.fileNotFound "Input file not found: in.txt"), fsBad) :=
  (protect_validation_order fsBad "in.txt" "out.txt" "ab" none).1 _ rfl

/-- Witness for C6: the 8-character password "pass1234" validates, and
the 3-character password "abc" fails with a ValueError. -/
theorem validate_password_length_spec_witness :
    validate_password "pass1234" = .ok () ∧
    ∃ m, validate_password "abc" = .error (.valueError m) :=
  ⟨(validate_password_length_spec "pass1234").2.mpr (by decide),
   (validate_password_length_spec "abc").1.mpr (Or.inr (by decide))⟩

/-- Witness for C7: a zero-byte "empty.pdf" fails with the empty-file
ValueError despite its correct extension, and a missing path fails with
NotFoundError. -/
theorem validate_input_file_spec_witness :
    validate_input_file fsEmptyFile "empty.pdf" =
      .error (.valueError "Input file is empty: empty.pdf") ∧
    validate_input_file fsBad "in.pdf" =
      .error (.fileNotFound "Input file not found: in.pdf") :=
  ⟨(validate_input_file_spec fsEmptyFile "empty.pdf").2.2.2.1 rfl rfl rfl rfl,
   (validate_input_file_spec fsBad "in.pdf").1 rfl⟩

/-- Witness for C8: a wrong extension fails with ValueError, and the
output path "out.pdf" is accepted on a filesystem where a file already
exists at that very path (overwrite allowed). -/
theorem validate_output_path_spec_witness :
    validate_output_path fsGood "out.txt" =
      .error (.valueError "Output file must have a .pdf extension: out.txt") ∧
    fsOverwrite.pathExists "out.pdf" = true ∧
    validate_output_path fsOverwrite "out.pdf" = .ok "out.pdf" :=
  ⟨(validate_output_path_spec fsGood "out.txt").1 (by decide),
   rfl,
   (validate_output_path_spec fsOverwrite "out.pdf").2.2.2 rfl rfl rfl⟩

/-- Witness for C9 (amended claim): the concrete run returns "in.pdf"
as given from validation, and the summary carries the resolved paths
"/work/in.pdf" and "/work/out.pdf". -/
theorem validate_input_returns_given_path_amended_witness :
    ("in.pdf" : String) = "in.pdf" ∧
    ∃ s, (protect_pdf fsGood "in.pdf" "out.pdf" "pass1234" none).1 = .ok s ∧
      s.input_file = fsGood.resolvePath "in.pdf" ∧
      s.output_file = fsGood.resolvePath "out.pdf" :=
  ⟨(validate_input_returns_given_path_amended fsGood "in.pdf" "out.pdf"
      "pass1234" "in.pdf" none "pass1234" docGood).1 rfl,
   (validate_input_returns_given_path_amended fsGood "in.pdf" "out.pdf"
      "pass1234" "in.pdf" none "pass1234" docGood).2 rfl rfl rfl rfl rfl rfl
      (by decide) rfl⟩

/-- Witness for C10: the concrete already-encrypted rejection (a
non-write error) leaves the filesystem exactly as it was. -/
theorem protect_nonwrite_error_preserves_fs_witness :
    (protect_pdf fsEnc "in.pdf" "out.pdf" "pass1234" none).2 = fsEnc :=
  protect_nonwrite_error_preserves_fs fsEnc "in.pdf" "out.pdf" "pass1234" none
    (.valueError
      "The input PDF is already encrypted: in.pdf. Please decrypt it first before re-encrypting.")
    (protect_pdf fsEnc "in.pdf" "out.pdf" "pass1234" none).2
    (by rfl) (fun m h => Err.noConfusion h)
